import Mathlib

/-!
Shallow embedding of the Sentry-AI Dialog Decision Pipeline
(`src/sentry_ai`): the LLM response parser (`core/llm_parsing.py`), the
fallback coordinator (`core/llm_fallback.py`), the decision strategies
(`agents/vscode_strategies.py`, `agents/vscode_simple_strategy.py`,
`agents/app_strategies.py`), the decision engine
(`agents/decision_engine.py`), the per-application confirmation policy
(`core/config.py`) and the dialog deduplicator
(`agents/vscode_observer.py`).

Python strings are modelled by `String`, Python `float` literals by `ℚ`
(every literal in the embedded code is exactly representable), Python
`None`-able values by `Option`, and Python exceptions by `Except String`.
-/

namespace SentryAI

/-! ## Python string primitives -/

/-- Python `needle in haystack` on strings: substring containment. -/
def is_substring (needle haystack : String) : Bool :=
  haystack.data.tails.any (fun t => needle.data.isPrefixOf t)

/-- The characters after the first occurrence of `sep` (non-empty) in `s`,
Python `s.split(sep, 1)[1]` when the separator occurs. -/
def after_first (sep : List Char) : List Char → Option (List Char)
  | [] => if sep.isPrefixOf [] then some [] else none
  | c :: t =>
    if sep.isPrefixOf (c :: t) then some ((c :: t).drop sep.length)
    else after_first sep t

/-- Python `int(...)` on a non-empty string of decimal digits. -/
def digits_to_nat (ds : List Char) : Nat :=
  ds.foldl (fun n c => 10 * n + (c.toNat - ('0').toNat)) 0

/-- Python `s.lower()` (ASCII; every string in the embedded code is ASCII). -/
def py_lower (s : String) : String :=
  String.mk (s.data.map Char.toLower)

/-- Python `s.strip()`: drop leading and trailing whitespace. -/
def py_trim (s : String) : String :=
  String.mk (((s.data.dropWhile Char.isWhitespace).reverse.dropWhile
    Char.isWhitespace).reverse)

/-- Split at every character satisfying `p`, keeping empty pieces. -/
def split_char (p : Char → Bool) : List Char → List (List Char)
  | [] => [[]]
  | c :: t =>
    if p c then [] :: split_char p t
    else
      match split_char p t with
      | [] => [[c]]
      | h :: r => (c :: h) :: r

/-- Python `s.split("\n")`. -/
def py_split_lines (s : String) : List String :=
  (split_char (fun c => c = '\n') s.data).map String.mk

/-- Python `s.startswith(pre)`. -/
def py_startswith (pre s : String) : Bool :=
  pre.data.isPrefixOf s.data

/-- Python `s.endswith(suf)`. -/
def py_endswith (suf s : String) : Bool :=
  suf.data.isSuffixOf s.data

/-- Python `s[n:]`. -/
def py_drop (n : Nat) (s : String) : String :=
  String.mk (s.data.drop n)

/-- Python `sep.join(xs)`. -/
def py_join (sep : String) : List String → String
  | [] => ""
  | [x] => x
  | x :: y :: rest => x ++ sep ++ py_join sep (y :: rest)

/-- Python `s.split()`: split on whitespace, dropping empty pieces. -/
def py_split_ws (s : String) : List String :=
  ((split_char Char.isWhitespace s.data).map String.mk).filter (fun t => t ≠ "")

/-- Python f-string interpolation of an `Optional[str]` (`None` prints as
`"None"`). -/
def py_str_opt : Option String → String
  | some s => s
  | none => "None"

/-- Python `a or dflt` for an optional string (`None` and `""` are falsy). -/
def py_or_str (a : Option String) (dflt : String) : String :=
  match a with
  | some s => if s ≠ "" then s else dflt
  | none => dflt

/-- Python `a or b or dflt` for optional strings. -/
def py_or_str2 (a b : Option String) (dflt : String) : String :=
  match a with
  | some s => if s ≠ "" then s else py_or_str b dflt
  | none => py_or_str b dflt

/-- Python `lst or []` for an optional list (`None` and `[]` are falsy). -/
def py_or_list (a : Option (List String)) : List String :=
  a.getD []

/-! ## Data model (`models/data_models.py`) -/

/-- `DialogContext` (the fields the decision pipeline reads). -/
structure DialogContext where
  app_name : String
  window_title : Option String := none
  question : Option String := none
  dialog_title : Option String := none
  dialog_text : Option String := none
  options : Option (List String) := none
  available_options : Option (List String) := none
deriving DecidableEq, Repr

/-- `DialogContext.get_options`: `self.options or self.available_options or []`. -/
def DialogContext.get_options (ctx : DialogContext) : List String :=
  match ctx.options with
  | some l => if l ≠ [] then l else py_or_list ctx.available_options
  | none => py_or_list ctx.available_options

/-- `AIDecision`. -/
structure AIDecision where
  chosen_option : String
  confidence : ℚ
  reasoning : String
  requires_confirmation : Bool
deriving DecidableEq, Repr

/-- `StrategyDecision` (`agents/app_strategies.py`). -/
structure StrategyDecision where
  chosen_option : String
  confidence : ℚ
  reasoning : String
  requires_confirmation : Bool
deriving DecidableEq, Repr

/-! ## Response parser (`core/llm_parsing.py`, `parse_structured_response`) -/

/-- The `{choice, reasoning, confidence}` dictionary returned by the parser. -/
structure ParseResult where
  choice : String
  reasoning : String
  confidence : ℚ
deriving DecidableEq, Repr

namespace llm_parsing

/-- The reasoning strategy 1 extracts: the first line past the regex match
`^(\d+)[.):\s-]*`, trimmed, plus the remaining lines joined by spaces. -/
def strategy1_reasoning (first_line : String) (lines : List String) : String :=
  let ds := first_line.data.takeWhile Char.isDigit
  let rest := first_line.data.drop ds.length
  let punct := rest.takeWhile
    (fun c => c = '.' ∨ c = ')' ∨ c = ':' ∨ c = '-' ∨ c.isWhitespace)
  let reasoning := py_trim (String.mk (rest.drop punct.length))
  if lines.length > 1 then
    reasoning ++ " " ++ py_join " " (lines.drop 1)
  else reasoning

/-- Strategy 1: regex `^(\d+)[.):\s-]*` on the first line, interpreted as a
1-based index into `options`; the rest of the line plus the remaining lines
become the reasoning. -/
def strategy1 (first_line : String) (lines : List String) (options : List String) :
    Option (String × String) :=
  let ds := first_line.data.takeWhile Char.isDigit
  if ds = [] then none
  else
    let n := digits_to_nat ds
    if 1 ≤ n ∧ n ≤ options.length then
      match options.get? (n - 1) with
      | some choice => some (choice, strategy1_reasoning first_line lines)
      | none => none
    else none

/-- Strategy 2: first option whose lowercase text occurs in the lowercase
response.  `response.split(option, 1)` raises `ValueError` in Python when the
matched option is the empty string; reasoning is the text after the match when
the original-case option occurs in the original response, otherwise the
previous reasoning is kept. -/
def strategy2 (response response_lower : String) (cr : String × String) :
    List String → Except String (String × String)
  | [] => .ok cr
  | option :: rest =>
    if is_substring (py_lower option) response_lower then
      if option = "" then .error "ValueError: empty separator"
      else
        let reasoning :=
          match after_first option.data response.data with
          | some tail => py_trim (String.mk tail)
          | none => cr.2
        .ok (option, reasoning)
    else strategy2 response response_lower cr rest

/-- One attempt of regex `(?:option|choice)\s+(\d+)` at the head of `s`. -/
def match_option_choice (s : List Char) : Option Nat :=
  let kw :=
    if ("option").data.isPrefixOf s then some (s.drop 6)
    else if ("choice").data.isPrefixOf s then some (s.drop 6)
    else none
  match kw with
  | some r =>
    let ws := r.takeWhile Char.isWhitespace
    if ws = [] then none
    else
      let ds := (r.drop ws.length).takeWhile Char.isDigit
      if ds = [] then none else some (digits_to_nat ds)
  | none => none

/-- `re.search`: leftmost match of `(?:option|choice)\s+(\d+)`. -/
def find_option_choice_num : List Char → Option Nat
  | [] => none
  | c :: t =>
    match match_option_choice (c :: t) with
    | some n => some n
    | none => find_option_choice_num t

/-- Strategy 3: `"option N"` / `"choice N"` phrase, 1-based index into
`options`; reasoning unchanged. -/
def strategy3 (response_lower : String) (options : List String) : Option String :=
  match find_option_choice_num response_lower.data with
  | some n =>
    if 1 ≤ n ∧ n ≤ options.length then options.get? (n - 1) else none
  | none => none

/-- The loop of strategy 4: best word-overlap score, strict improvement only
(earliest option wins ties). -/
def best_overlap (response_words : List String) :
    List String → Option String × Nat → Option String × Nat
  | [], acc => acc
  | option :: rest, acc =>
    let overlap :=
      (((py_split_ws (py_lower option)).dedup).filter
        (fun w => response_words.contains w)).length
    best_overlap response_words rest
      (if overlap > acc.2 then (some option, overlap) else acc)

/-- Strategy 4: fuzzy word-overlap match. -/
def strategy4 (response_lower : String) (options : List String) :
    Option (String × String) :=
  let response_words := py_split_ws response_lower
  match best_overlap response_words options (none, 0) with
  | (some b, score) =>
    if b ≠ "" ∧ score > 0 then some (b, "Fuzzy matched based on word overlap")
    else none
  | (none, _) => none

/-- Strategy 3 applied under Python truthiness: it runs only when the choice
is still unset and leaves the reasoning unchanged. -/
def chain_step3 (response_lower : String) (options : List String)
    (cr2 : String × String) : String × String :=
  if cr2.1 = "" then
    match strategy3 response_lower options with
    | some c => (c, cr2.2)
    | none => cr2
  else cr2

/-- Strategy 4 applied under Python truthiness. -/
def chain_step4 (response_lower : String) (options : List String)
    (cr3 : String × String) : String × String :=
  if cr3.1 = "" then
    match strategy4 response_lower options with
    | some c => c
    | none => cr3
  else cr3

/-- The initial `(choice, reasoning)` pair after strategy 1: the strategy's
result, or `("", "")` (both unset) when it did not match. -/
def chain_start (first_line : String) (lines : List String) (options : List String) :
    String × String :=
  match strategy1 first_line lines options with
  | some c => c
  | none => ("", "")

/-- Strategies 1–4 chained with Python truthiness on `choice` (`""` and unset
are both falsy); returns `(choice, reasoning)` with `""` meaning "no strategy
produced a choice". -/
def choice_chain (response : String) (options : List String) :
    Except String (String × String) :=
  let lines := py_split_lines response
  let first_line := py_trim (lines.headD "")
  let cr1 := chain_start first_line lines options
  let response_lower := py_lower response
  match (if cr1.1 = "" then strategy2 response response_lower cr1 options else .ok cr1) with
  | .error e => .error e
  | .ok cr2 => .ok (chain_step4 response_lower options (chain_step3 response_lower options cr2))

end llm_parsing

/-- `parse_structured_response(response, options, confidence=0.8)`.
Errors model the Python exceptions that can escape the function. -/
def parse_structured_response (response : String) (options : List String)
    (confidence : ℚ) : Except String ParseResult :=
  let response := py_trim response
  match llm_parsing.choice_chain response options with
  | .error e => .error e
  | .ok (choice, reasoning) =>
    if choice = "" then
      match options with
      | [] => .error "IndexError: list index out of range"
      | o :: _ =>
        .ok ⟨o, "Fallback to first option - could not parse response", 0.3⟩
    else
      let reasoning := if reasoning = "" then "No explicit reasoning provided" else reasoning
      .ok ⟨choice, py_trim reasoning, confidence⟩

/-! ## Fallback coordinator (`core/llm_fallback.py`, `LLMFallbackManager`) -/

/-- The `{choice, reasoning, confidence?}` dictionary a provider's
`generate_structured` returns (the `confidence` key may be absent). -/
structure StructuredResult where
  choice : String
  reasoning : String
  confidence : Option ℚ
deriving DecidableEq, Repr

/-- A provider's `generate_structured(prompt, options, system_prompt)`
behaviour: success or a raised exception. -/
def ProviderFun : Type :=
  String → List String → Option String → Except String StructuredResult

/-- What happened to one identity of the fallback order during a
`generate_structured` run. -/
inductive ProviderAttempt where
  /-- `self.providers.get(name)` was `None`: identity unavailable, skipped. -/
  | skipped (name : String)
  /-- the provider was invoked and raised; the recorded error message. -/
  | failed (name : String) (msg : String)
  /-- the provider was invoked and returned a result. -/
  | succeeded (name : String)
deriving DecidableEq, Repr

def ProviderAttempt.isSucceeded : ProviderAttempt → Bool
  | .succeeded _ => true
  | _ => false

namespace LLMFallbackManager

/-- The `for provider_name in self.fallback_order` loop of
`generate_structured`, instrumented with the list of attempts it makes.
`errors` is the accumulated error-message list. -/
def tryProviders (providers : List (String × ProviderFun)) (prompt : String)
    (options : List String) (system_prompt : Option String) :
    List String → List String → List ProviderAttempt × Except String StructuredResult
  | [], errors =>
    ([], .error ("All LLM providers failed: " ++ py_join "; " errors))
  | name :: rest, errors =>
    match providers.lookup name with
    | none =>
      let r := tryProviders providers prompt options system_prompt rest errors
      (.skipped name :: r.1, r.2)
    | some f =>
      match f prompt options system_prompt with
      | .ok res => ([.succeeded name], .ok res)
      | .error e =>
        let msg := name ++ " failed: " ++ e
        let r := tryProviders providers prompt options system_prompt rest (errors ++ [msg])
        (.failed name msg :: r.1, r.2)

/-- The attempt the loop would record for identity `name`. -/
def attempt_of (providers : List (String × ProviderFun)) (prompt : String)
    (options : List String) (system_prompt : Option String) (name : String) :
    ProviderAttempt :=
  match providers.lookup name with
  | none => .skipped name
  | some f =>
    match f prompt options system_prompt with
    | .ok _ => .succeeded name
    | .error e => .failed name (name ++ " failed: " ++ e)

end LLMFallbackManager

/-- The fallback-manager state the decision pipeline reads: the initialized
(available) provider instances keyed by identity, the configured order, and
the `enabled` flag. -/
structure FallbackManagerState where
  providers : List (String × ProviderFun)
  fallback_order : List String
  enabled : Bool

namespace LLMFallbackManager

/-- `LLMFallbackManager.is_any_available`. -/
def is_any_available (st : FallbackManagerState) : Bool :=
  st.providers.length > 0

/-- `LLMFallbackManager.generate_structured`. -/
def generate_structured (st : FallbackManagerState) (prompt : String)
    (options : List String) (system_prompt : Option String) :
    Except String StructuredResult :=
  if ¬ st.enabled ∨ st.providers.length = 0 then
    .error "No LLM providers available"
  else
    (tryProviders st.providers prompt options system_prompt st.fallback_order []).2

end LLMFallbackManager

/-! ## VS Code strategies (`agents/vscode_strategies.py`) -/

namespace ClaudeBashCommandStrategy

/-- `self.safe_patterns`. -/
def safe_patterns : List String :=
  ["cat", "ls", "pwd", "echo", "grep", "find", "wc",
   "head", "tail", "less", "more", "which", "whereis",
   "python", "node", "npm", "pip", "git status", "git log",
   "git diff", "curl", "wget"]

/-- `self.dangerous_patterns`. -/
def dangerous_patterns : List String :=
  ["rm -rf", "sudo", "chmod", "chown", "dd", "mkfs",
   "format", ">", ">>", "kill", "pkill", "killall"]

/-- `_extract_command`: first line starting with `$` (marker stripped), else
first non-empty line not ending in `?`, else `""`. -/
def extract_command_lines : List String → String
  | [] => ""
  | line :: rest =>
    let line := py_trim line
    if py_startswith "$" line then py_trim (py_drop 1 line)
    else if line ≠ "" ∧ ¬ py_endswith "?" line then line
    else extract_command_lines rest

def extract_command (question : String) : String :=
  extract_command_lines (py_split_lines question)

/-- `_is_safe_command`. -/
def is_safe_command (command : String) : Bool :=
  safe_patterns.any (fun pattern => is_substring pattern (py_lower command))

/-- `_is_dangerous_command`. -/
def is_dangerous_command (command : String) : Bool :=
  dangerous_patterns.any (fun pattern => is_substring pattern (py_lower command))

/-- `ClaudeBashCommandStrategy.can_handle`. -/
def can_handle (ctx : DialogContext) : Bool :=
  let question := py_lower (py_or_str ctx.question "")
  let options := (py_or_list ctx.options).map py_lower
  if is_substring "allow this bash command" question ∨
     is_substring "allow this command" question then true
  else if options.contains "yes" ∧ options.contains "no" then
    options.any (fun opt => is_substring "tell claude" opt)
  else false

/-- `ClaudeBashCommandStrategy.decide` (constructor arguments
`auto_approve`, `safe_commands_only`). -/
def decide (auto_approve safe_commands_only : Bool) (ctx : DialogContext) :
    Option AIDecision :=
  if ¬ auto_approve then
    some ⟨"No", 1.0, "Auto-approve disabled", true⟩
  else
    let command := extract_command (py_or_str ctx.question "")
    if safe_commands_only ∧ is_dangerous_command command then
      some ⟨"No", 0.9, "Dangerous command detected: " ++ command, true⟩
    else if safe_commands_only ∧ ¬ is_safe_command command then
      some ⟨"Tell Claude what to do instead", 0.7,
            "Unknown command safety: " ++ command, true⟩
    else if (py_or_list ctx.options).contains "Yes" then
      some ⟨"Yes", 0.9, "Safe command approved: " ++ command, false⟩
    else none

end ClaudeBashCommandStrategy

namespace ClaudeEditAutomaticallyStrategy

/-- `ClaudeEditAutomaticallyStrategy.can_handle`. -/
def can_handle (ctx : DialogContext) : Bool :=
  is_substring "edit automatically" (py_lower (py_or_str ctx.question ""))

/-- `ClaudeEditAutomaticallyStrategy.decide`. -/
def decide (auto_approve : Bool) (_ctx : DialogContext) : Option AIDecision :=
  if auto_approve then
    some ⟨"Yes", 0.8, "Auto-edit approved", false⟩
  else
    some ⟨"No", 1.0, "Auto-edit disabled", true⟩

end ClaudeEditAutomaticallyStrategy

/-- A free-text generation backend: `llm_provider.generate(prompt)`, success
or a raised exception. -/
def TextGen : Type := String → Except String String

namespace ClaudeQuestionStrategy

/-- `ClaudeQuestionStrategy.can_handle`: lowercased question ends with `?`
and there are no button options. -/
def can_handle (ctx : DialogContext) : Bool :=
  (py_endswith "?" (py_trim (py_lower (py_or_str ctx.question "")))) ∧
    py_or_list ctx.options = []

/-- The prompt `decide` builds around `context.question`. -/
def question_prompt (ctx : DialogContext) : String :=
  "Claude Code is asking a question about the project:\n\nQuestion: " ++
    py_str_opt ctx.question ++
    "\n\nProvide a brief, helpful answer that will help Claude continue the development task."

/-- `ClaudeQuestionStrategy.decide`: no provider ⇒ empty-text decision that
requires confirmation; provider success ⇒ the generated text with
`requires_confirmation = True`; provider exception ⇒ no decision. -/
def decide (llm_provider : Option TextGen) (ctx : DialogContext) :
    Option AIDecision :=
  match llm_provider with
  | none =>
    some ⟨"", 0.0, "No LLM provider available for answering questions", true⟩
  | some gen =>
    match gen (question_prompt ctx) with
    | .ok answer =>
      some ⟨answer, 0.7, "LLM-generated answer to Claude\x27s question", true⟩
    | .error _ => none

end ClaudeQuestionStrategy

namespace VSCodeStrategyManager

/-- `VSCodeStrategyManager.decide`: the manager returns the first strategy
whose `can_handle` is true and returns that strategy's `decide` result
directly, whether or not it is a decision.  The strategy list is the one the
constructor builds: bash (`auto_approve=True, safe_commands_only=True`),
edit (`auto_approve=True`), question (`llm_provider`). -/
def decide (llm_provider : Option TextGen) (ctx : DialogContext) :
    Option AIDecision :=
  if ClaudeBashCommandStrategy.can_handle ctx then
    ClaudeBashCommandStrategy.decide true true ctx
  else if ClaudeEditAutomaticallyStrategy.can_handle ctx then
    ClaudeEditAutomaticallyStrategy.decide true ctx
  else if ClaudeQuestionStrategy.can_handle ctx then
    ClaudeQuestionStrategy.decide llm_provider ctx
  else none

end VSCodeStrategyManager

/-! ## Simple VS Code strategies (`agents/vscode_simple_strategy.py`) -/

namespace SimpleVSCodeStrategy

/-- `SimpleVSCodeStrategy.can_handle`: any VS-Code-like application name. -/
def can_handle (ctx : DialogContext) : Bool :=
  let app_name := py_lower (py_or_str (some ctx.app_name) "")
  ["visual studio code", "code", "vscode"].any
    (fun name => is_substring name app_name)

/-- The `priority_choices` keywords, in order. -/
def priority_keywords : List String :=
  ["yes", "allow", "continue", "ok", "approve"]

/-- The nested `for keyword ... for i, opt ...` loops: first keyword (in
priority order) contained in some lowercased option; returns that option. -/
def find_priority : List String → List String → Option String
  | [], _ => none
  | keyword :: rest, options =>
    match options.find? (fun opt => is_substring keyword (py_lower opt)) with
    | some opt => some opt
    | none => find_priority rest options

/-- `SimpleVSCodeStrategy.decide`. -/
def decide (ctx : DialogContext) : Option AIDecision :=
  let options := py_or_list ctx.options
  match options with
  | [] => none
  | first :: _ =>
    match find_priority priority_keywords options with
    | some chosen =>
      some ⟨chosen, 1.0,
            "Simple strategy: Auto-approve with \x27" ++ chosen ++ "\x27", false⟩
    | none =>
      some ⟨first, 0.8,
            "Simple strategy: Auto-approve with first option \x27" ++ first ++ "\x27",
            false⟩

end SimpleVSCodeStrategy

namespace SimpleAnswerStrategy

/-- `SimpleAnswerStrategy.can_handle`: a question keyword in the prompt and
an answer/respond option present. -/
def can_handle (ctx : DialogContext) : Bool :=
  let question := py_lower (py_or_str ctx.question "")
  let options := (py_or_list ctx.options).map py_lower
  let keywords := ["what", "how", "which", "where", "when", "who",
                   "enter", "type", "specify", "provide", "tell"]
  if keywords.any (fun keyword => is_substring keyword question) then
    options.any (fun opt => is_substring "answer" opt || is_substring "respond" opt)
  else false

/-- The prompt `_generate_llm_answer` builds around the question. -/
def answer_prompt (question : String) : String :=
  "The user is working with Claude Code in VS Code.\nClaude asked: \x22" ++
    question ++
    "\x22\n\nProvide a brief, helpful answer (max 50 words) to help Claude continue the task.\nBe practical and assume the user wants to proceed with the task."

/-- `_generate_llm_answer`: the provider's text, stripped; `None` when the
provider raises. -/
def generate_llm_answer (gen : TextGen) (question : String) : Option String :=
  match gen (answer_prompt question) with
  | .ok response => some (py_trim response)
  | .error _ => none

/-- `_generate_default_answer`. -/
def generate_default_answer (question : String) : String :=
  let question_lower := py_lower question
  if is_substring "yes" question_lower ∧ is_substring "no" question_lower then "Yes"
  else if is_substring "continue" question_lower then "Yes, continue"
  else if is_substring "file" question_lower ∨ is_substring "path" question_lower then
    "./output.txt"
  else if is_substring "name" question_lower then "output"
  else if is_substring "number" question_lower ∨ is_substring "count" question_lower then
    "10"
  else "Yes, proceed"

/-- The default-answer decision `decide` falls back to. -/
def default_decision (question : String) : AIDecision :=
  ⟨generate_default_answer question, 0.7,
   "Default answer to: " ++ question, false⟩

/-- `SimpleAnswerStrategy.decide`: an LLM-generated answer is returned with
`confidence = 0.9` and `requires_confirmation = False`; otherwise the default
answer with `confidence = 0.7` and `requires_confirmation = False`. -/
def decide (llm_provider : Option TextGen) (ctx : DialogContext) :
    Option AIDecision :=
  let question := py_or_str ctx.question ""
  match llm_provider with
  | some gen =>
    match generate_llm_answer gen question with
    | some answer =>
      if answer ≠ "" then
        some ⟨answer, 0.9, "LLM-generated answer to: " ++ question, false⟩
      else some (default_decision question)
    | none => some (default_decision question)
  | none => some (default_decision question)

end SimpleAnswerStrategy

namespace SimpleVSCodeStrategyManager

/-- `SimpleVSCodeStrategyManager.decide`: approval strategy, then answer
strategy, then "default to Yes"; each consulted only when its `can_handle`
is true, and a `None` from one falls through to the next. -/
def decide (llm_provider : Option TextGen) (ctx : DialogContext) :
    Option AIDecision :=
  match (if SimpleVSCodeStrategy.can_handle ctx then SimpleVSCodeStrategy.decide ctx
         else none) with
  | some d => some d
  | none =>
    match (if SimpleAnswerStrategy.can_handle ctx then
             SimpleAnswerStrategy.decide llm_provider ctx
           else none) with
    | some d => some d
    | none =>
      match (py_or_list ctx.options).find?
              (fun opt => is_substring "yes" (py_lower opt)) with
      | some opt => some ⟨opt, 0.8, "Default to Yes", false⟩
      | none => none

end SimpleVSCodeStrategyManager

/-! ## Application strategies (`agents/app_strategies.py`)

Each strategy reads `app_name`, `question` and `options` out of the
context dictionary (`context.__dict__`); a `None` question would make the
Python `.lower()` call raise, so the embedding — like every call site in the
pipeline — reads the question with default `""`. -/

/-- A `BaseAppStrategy` as the manager sees it. -/
structure AppStrategy where
  can_handle : DialogContext → Bool
  decide : DialogContext → Option StrategyDecision

namespace app_strategies

def question_of (ctx : DialogContext) : String :=
  py_lower (py_or_str ctx.question "")

/-- `TextEditStrategy`. -/
def TextEditStrategy : AppStrategy where
  can_handle ctx := ctx.app_name == "TextEdit"
  decide ctx :=
    let question := question_of ctx
    let options := py_or_list ctx.options
    if is_substring "save" question ∧
       (options.map py_lower).contains "don\x27t save" then
      some ⟨"Save", 0.8, "Default to saving documents in TextEdit for safety", false⟩
    else none

/-- `FinderStrategy`. -/
def FinderStrategy : AppStrategy where
  can_handle ctx := ctx.app_name == "Finder"
  decide ctx :=
    let question := question_of ctx
    if ["delete", "remove", "trash", "empty"].any
         (fun word => is_substring word question) then
      some ⟨"Cancel", 0.9, "Destructive Finder operations require user confirmation", true⟩
    else if is_substring "replace" question then
      some ⟨"Cancel", 0.8, "File replacement should be confirmed by user", true⟩
    else none

/-- `SafariStrategy`. -/
def SafariStrategy : AppStrategy where
  can_handle ctx := ctx.app_name == "Safari"
  decide ctx :=
    let question := question_of ctx
    if is_substring "download" question then
      some ⟨"Allow", 0.7, "Auto-allow downloads in Safari", false⟩
    else if is_substring "close" question ∧ is_substring "tab" question then
      some ⟨"Close", 0.6, "Allow closing multiple tabs", false⟩
    else if ["clear", "remove", "delete"].any (fun word => is_substring word question) then
      some ⟨"Cancel", 0.9, "Clearing browsing data requires confirmation", true⟩
    else none

/-- `MailStrategy`. -/
def MailStrategy : AppStrategy where
  can_handle ctx := ctx.app_name == "Mail"
  decide ctx :=
    let question := question_of ctx
    if is_substring "delete" question then
      some ⟨"Delete", 0.7, "Allow deleting emails (can be recovered from trash)", false⟩
    else if is_substring "subject" question ∧ is_substring "send" question then
      some ⟨"Don\x27t Send", 0.8, "Don\x27t send emails without subject", false⟩
    else if is_substring "large" question ∨ is_substring "size" question then
      some ⟨"Send", 0.6, "Allow sending large attachments", true⟩
    else none

/-- `NotesStrategy`. -/
def NotesStrategy : AppStrategy where
  can_handle ctx := ctx.app_name == "Notes"
  decide ctx :=
    let question := question_of ctx
    if is_substring "delete" question then
      some ⟨"Delete", 0.7, "Allow deleting notes (recoverable from Recently Deleted)", false⟩
    else if is_substring "save" question then
      some ⟨"Save", 0.9, "Always save notes", false⟩
    else none

/-- `XcodeStrategy`. -/
def XcodeStrategy : AppStrategy where
  can_handle ctx := ctx.app_name == "Xcode"
  decide ctx :=
    let question := question_of ctx
    if is_substring "build" question then
      some ⟨"Continue", 0.5, "Allow continuing despite build warnings", true⟩
    else if is_substring "delete" question ∧ is_substring "derived" question then
      some ⟨"Delete", 0.8, "Safe to delete derived data", false⟩
    else if is_substring "sign" question ∨ is_substring "certificate" question then
      some ⟨"Cancel", 0.9, "Code signing requires user attention", true⟩
    else none

/-- `PhotosStrategy`. -/
def PhotosStrategy : AppStrategy where
  can_handle ctx := ctx.app_name == "Photos"
  decide ctx :=
    let question := question_of ctx
    if is_substring "delete" question then
      some ⟨"Delete", 0.6,
            "Allow deleting photos (recoverable from Recently Deleted for 30 days)", false⟩
    else if is_substring "import" question then
      some ⟨"Import", 0.8, "Auto-import photos", false⟩
    else if is_substring "optimize" question ∨ is_substring "storage" question then
      some ⟨"Optimize", 0.7, "Allow storage optimization", false⟩
    else none

/-- `SlackStrategy`. -/
def SlackStrategy : AppStrategy where
  can_handle ctx := ctx.app_name == "Slack"
  decide ctx :=
    let question := question_of ctx
    if is_substring "notification" question then
      some ⟨"Allow", 0.9, "Allow Slack notifications", false⟩
    else if is_substring "update" question then
      some ⟨"Later", 0.7, "Defer Slack updates to avoid interruption", false⟩
    else none

end app_strategies

namespace AppStrategyManager

/-- The strategy list the `AppStrategyManager` constructor builds. -/
def strategies : List AppStrategy :=
  [app_strategies.TextEditStrategy, app_strategies.FinderStrategy,
   app_strategies.SafariStrategy, app_strategies.MailStrategy,
   app_strategies.NotesStrategy, app_strategies.XcodeStrategy,
   app_strategies.PhotosStrategy, app_strategies.SlackStrategy]

/-- The `for strategy in self.strategies` loop of
`AppStrategyManager.decide`: a strategy whose `can_handle` is true but whose
`decide` returns nothing does not stop the loop. -/
def decide_list : List AppStrategy → DialogContext → Option StrategyDecision
  | [], _ => none
  | s :: rest, ctx =>
    if s.can_handle ctx then
      match s.decide ctx with
      | some d => some d
      | none => decide_list rest ctx
    else decide_list rest ctx

/-- `AppStrategyManager.decide` (the module-global `strategy_manager`). -/
def decide (ctx : DialogContext) : Option StrategyDecision :=
  decide_list strategies ctx

end AppStrategyManager

/-! ## Confirmation policy (`core/config.py`) -/

/-- `requires_confirmation(app_name)`: membership of the application in
`settings.require_confirmation_for`. -/
def requires_confirmation (require_confirmation_for : List String)
    (app_name : String) : Bool :=
  require_confirmation_for.contains app_name

/-- The default of `settings.require_confirmation_for`. -/
def default_require_confirmation_for : List String := ["Finder", "Mail"]

/-! ## Decision engine (`agents/decision_engine.py`) -/

/-- The state a `DecisionEngine` instance closes over: the global fallback
manager, the configured confirmation list, which VS Code strategy manager the
constructor picked, and the `first_provider` handed to that manager. -/
structure EngineEnv where
  fallback : FallbackManagerState
  require_confirmation_for : List String
  use_simple_vscode_strategy : Bool
  first_provider : Option TextGen

namespace DecisionEngine

/-- The VS-Code routing test of `decide`:
`"visual studio code" in app.lower() or "vscode" in app.lower()`. -/
def is_vscode_app (app_name : String) : Bool :=
  is_substring "visual studio code" (py_lower app_name) ∨
    is_substring "vscode" (py_lower app_name)

/-- The `self.vscode_strategies.decide(context)` call of `decide`, guarded by
the VS-Code routing test. -/
def vscode_decision (env : EngineEnv) (ctx : DialogContext) : Option AIDecision :=
  if is_vscode_app ctx.app_name then
    if env.use_simple_vscode_strategy then
      SimpleVSCodeStrategyManager.decide env.first_provider ctx
    else
      VSCodeStrategyManager.decide env.first_provider ctx
  else none

/-- The system prompt `_ai_decision` uses. -/
def decision_system_prompt : String :=
  "You are an AI assistant helping to automate dialog responses on macOS.\nYour task is to choose the most appropriate option based on the context.\nBe conservative and prefer safe options (like Save over Don\x27t Save)."

/-- The user prompt `_ai_decision` builds from the context. -/
def decision_prompt (ctx : DialogContext) : String :=
  "Application: " ++ ctx.app_name ++
  "\nDialog Title: " ++ py_or_str2 ctx.window_title ctx.dialog_title "Unknown" ++
  "\nDialog Text: " ++ py_or_str2 ctx.question ctx.dialog_text "No text" ++
  "\n\nAvailable options: " ++ py_join ", " ctx.get_options ++
  "\n\nWhich option should I choose? Consider:\n1. Safety (don\x27t lose data)\n2. User intent (what would the user likely want?)\n3. Context (what was the user doing?)\n\nChoose the option number and explain briefly."

/-- `DecisionEngine._ai_decision`: the fallback manager's structured result
as an `AIDecision` (confidence key defaulted to `0.8`,
`requires_confirmation` set later by the caller); any raised error is caught
and yields no decision. -/
def ai_decision (env : EngineEnv) (ctx : DialogContext) : Option AIDecision :=
  if ¬ LLMFallbackManager.is_any_available env.fallback then none
  else
    match LLMFallbackManager.generate_structured env.fallback
        (decision_prompt ctx) ctx.get_options (some decision_system_prompt) with
    | .ok result => some ⟨result.choice, result.confidence.getD 0.8, result.reasoning, false⟩
    | .error _ => none

/-- `save_keywords` of `_rule_based_decision`. -/
def save_keywords : List String := ["save", "enregistrer", "sauvegarder", "yes", "oui"]

/-- `cancel_keywords` of `_rule_based_decision`. -/
def cancel_keywords : List String := ["cancel", "annuler", "no", "non"]

def has_save_keyword (option : String) : Bool :=
  save_keywords.any (fun keyword => is_substring keyword (py_lower option))

def has_cancel_keyword (option : String) : Bool :=
  cancel_keywords.any (fun keyword => is_substring keyword (py_lower option))

/-- `DecisionEngine._rule_based_decision`. -/
def rule_based_decision (ctx : DialogContext) : Option AIDecision :=
  let options := ctx.get_options
  match options with
  | [] => none
  | first :: _ =>
    match options.find? has_save_keyword with
    | some option =>
      some ⟨option, 0.7, "Rule-based: Prefer saving to avoid data loss", false⟩
    | none =>
      match options.find? (fun option => !(has_cancel_keyword option)) with
      | some option =>
        some ⟨option, 0.6, "Rule-based: Choose first non-cancel option", false⟩
      | none =>
        some ⟨first, 0.5, "Rule-based: Default to first option", false⟩

/-- `DecisionEngine.decide`: VS Code strategies, then application strategies
(each returned with the strategy's own `requires_confirmation`), then the AI
path and finally the rule-based default, these last two stamped with the
per-application confirmation policy. -/
def decide (env : EngineEnv) (ctx : DialogContext) : Option AIDecision :=
  match vscode_decision env ctx with
  | some d => some d
  | none =>
    match AppStrategyManager.decide ctx with
    | some sd =>
      some ⟨sd.chosen_option, sd.confidence, sd.reasoning, sd.requires_confirmation⟩
    | none =>
      let needs_confirmation :=
        requires_confirmation env.require_confirmation_for ctx.app_name
      let ai := if LLMFallbackManager.is_any_available env.fallback then
                  ai_decision env ctx
                else none
      match ai with
      | some d => some { d with requires_confirmation := needs_confirmation }
      | none =>
        (rule_based_decision ctx).map
          (fun d => { d with requires_confirmation := needs_confirmation })

end DecisionEngine

/-! ## Dialog deduplicator (`agents/vscode_observer.py`) -/

namespace VSCodeObserver

/-- `_hash_dialog`: the dedup key
`f"{app_name}:{question}:{','.join(options or [])}"`. -/
def hash_dialog (dialog : DialogContext) : String :=
  dialog.app_name ++ ":" ++ py_str_opt dialog.question ++ ":" ++
    py_join "," (py_or_list dialog.options)

/-- The dedup step of `detect_claude_dialog` on a detected dialog: accept
(and remember the new hash) exactly when the hash differs from
`self.last_dialog_hash` (initially `None`); otherwise reject and keep the
stored hash. -/
def dedup_step (last_dialog_hash : Option String) (dialog : DialogContext) :
    Bool × Option String :=
  let dialog_hash := hash_dialog dialog
  if some dialog_hash ≠ last_dialog_hash then (true, some dialog_hash)
  else (false, last_dialog_hash)

end VSCodeObserver

/-! ## Concrete fixtures used by witnesses and counterexamples -/

/-- A VS Code dialog whose first strategy (`ClaudeBashCommandStrategy`)
handles it but declines to decide (safe command, yet no exact `"Yes"`
option), while the second strategy (`ClaudeEditAutomaticallyStrategy`) both
handles it and decides. -/
def ctxC5 : DialogContext :=
  { app_name := "Visual Studio Code",
    question := some "allow this bash command?\n$ ls\nedit automatically?",
    options := some ["yes"] }

/-- A Mail deletion dialog (Mail is on the default confirmation list). -/
def ctxMail : DialogContext :=
  { app_name := "Mail", question := some "Delete this email?",
    options := some ["Delete", "Cancel"] }

/-- A Mail dialog the Mail strategy handles but does not decide. -/
def ctxPlainMail : DialogContext :=
  { app_name := "Mail", question := some "Archive this conversation?",
    options := some ["Archive", "Cancel"] }

/-- A dialog whose only option is cancel-like. -/
def ctxCancel : DialogContext :=
  { app_name := "SomeApp", options := some ["Cancel"] }

/-- A dialog no strategy handles, with one neutral option. -/
def ctxPlain : DialogContext :=
  { app_name := "SomeApp", question := some "Choose:", options := some ["OK"] }

/-- A free-text question dialog with an answer-style option, reaching
`SimpleAnswerStrategy` through `SimpleVSCodeStrategyManager`. -/
def ctxQ : DialogContext :=
  { app_name := "Visual Studio Helper", question := some "What file should I use?",
    options := some ["Answer the question"] }

/-- A free-text question dialog with no options (the `ClaudeQuestionStrategy`
shape). -/
def ctxFreeText : DialogContext :=
  { app_name := "Visual Studio Code",
    question := some "Which database should the project use?",
    options := some [] }

/-- The spec's dangerous command-approval scenario. -/
def ctxDanger : DialogContext :=
  { app_name := "Visual Studio Code",
    question := some "Allow this bash command?\n\n$ rm -rf /",
    options := some ["Yes", "No"] }

/-- The spec's safe command-approval scenario. -/
def ctxSafe : DialogContext :=
  { app_name := "Visual Studio Code",
    question := some "Allow this bash command?\n\n$ ls -la",
    options := some ["Yes", "No"] }

/-- A backend that always fails. -/
def failP : ProviderFun := fun _ _ _ => .error "timeout"

/-- A backend that always succeeds. -/
def okP : ProviderFun := fun _ _ _ => .ok ⟨"Save", "fine", none⟩

/-- A free-text generation backend returning a fixed answer. -/
def genC1 : TextGen := fun _ => .ok "Use defaults"

/-- An engine with no available backends and the default configuration. -/
def env0 : EngineEnv :=
  { fallback := { providers := [], fallback_order := ["claude", "openai", "gemini", "ollama"],
                  enabled := true },
    require_confirmation_for := default_require_confirmation_for,
    use_simple_vscode_strategy := true,
    first_provider := none }

/-- An engine whose single available backend always fails. -/
def envFail : EngineEnv :=
  { fallback := { providers := [("ollama", failP)], fallback_order := ["ollama"],
                  enabled := true },
    require_confirmation_for := default_require_confirmation_for,
    use_simple_vscode_strategy := true,
    first_provider := none }

/-! ## Claim C9: deduplicator accepts then rejects an identical dialog -/

/-- C9: from any deduplicator state whose stored key differs from the
dialog's key, submitting the same dialog twice in succession accepts the
first submission (storing its key) and rejects the second (keeping the
stored key). -/
theorem C9_dedup_accept_then_reject (last : Option String) (dialog : DialogContext)
    (h : last ≠ some (VSCodeObserver.hash_dialog dialog)) :
    (VSCodeObserver.dedup_step last dialog).1 = true ∧
    (VSCodeObserver.dedup_step last dialog).2 = some (VSCodeObserver.hash_dialog dialog) ∧
    (VSCodeObserver.dedup_step (VSCodeObserver.dedup_step last dialog).2 dialog).1 = false ∧
    (VSCodeObserver.dedup_step (VSCodeObserver.dedup_step last dialog).2 dialog).2 =
      (VSCodeObserver.dedup_step last dialog).2 := by
  have h1 : some (VSCodeObserver.hash_dialog dialog) ≠ last := fun he => h he.symm
  simp only [VSCodeObserver.dedup_step, if_pos h1]
  simp

/-- C9 witness: a fresh observer (no stored key) on the Mail dialog. -/
theorem C9_dedup_witness :
    (VSCodeObserver.dedup_step none ctxMail).1 = true ∧
    (VSCodeObserver.dedup_step none ctxMail).2 = some (VSCodeObserver.hash_dialog ctxMail) ∧
    (VSCodeObserver.dedup_step (VSCodeObserver.dedup_step none ctxMail).2 ctxMail).1 = false ∧
    (VSCodeObserver.dedup_step (VSCodeObserver.dedup_step none ctxMail).2 ctxMail).2 =
      (VSCodeObserver.dedup_step none ctxMail).2 :=
  C9_dedup_accept_then_reject none ctxMail (by simp)

/-! ## Claim C2: the rule-based default on cancel-only or empty options -/

/-- C2 counterexample: with the single, cancel-like option `"Cancel"`, the
rule-based default does not return "no decision": its last-resort branch
chooses the first option with confidence `0.5`. -/
theorem C2_counterexample :
    DecisionEngine.has_cancel_keyword "Cancel" = true ∧
    DecisionEngine.rule_based_decision ctxCancel =
      some ⟨"Cancel", 0.5, "Rule-based: Default to first option", false⟩ := by
  constructor
  · rfl
  · rfl

/-- C2 amended: with an empty options list the rule-based default produces no
decision; but when every option is cancel-like (and none save-like) it does
not produce "nothing" — it falls back to the first option with confidence
`0.5`. -/
theorem C2_amended (ctx : DialogContext) :
    (ctx.get_options = [] → DecisionEngine.rule_based_decision ctx = none) ∧
    (∀ first rest, ctx.get_options = first :: rest →
      (∀ o ∈ first :: rest, DecisionEngine.has_cancel_keyword o = true ∧
          DecisionEngine.has_save_keyword o = false) →
      DecisionEngine.rule_based_decision ctx =
        some ⟨first, 0.5, "Rule-based: Default to first option", false⟩) := by
  constructor
  · intro h
    simp only [DecisionEngine.rule_based_decision, h]
  · intro first rest h hall
    have hsave : (first :: rest).find? DecisionEngine.has_save_keyword = none := by
      rw [List.find?_eq_none]
      intro x hx
      simp [(hall x hx).2]
    have hcancel :
        (first :: rest).find? (fun option => !(DecisionEngine.has_cancel_keyword option)) = none := by
      rw [List.find?_eq_none]
      intro x hx
      simp [(hall x hx).1]
    simp only [DecisionEngine.rule_based_decision, h, hsave, hcancel]

/-- C2 witness: both branches of the amended claim at concrete dialogs. -/
theorem C2_amended_witness :
    DecisionEngine.rule_based_decision { app_name := "A" } = none ∧
    DecisionEngine.rule_based_decision ctxCancel =
      some ⟨"Cancel", 0.5, "Rule-based: Default to first option", false⟩ := by
  constructor
  · exact (C2_amended { app_name := "A" }).1 rfl
  · exact (C2_amended ctxCancel).2 "Cancel" [] rfl (by decide)

/-! ## Claim C5: behaviour when `can_handle` is true but `decide` is nothing -/

/-- C5 counterexample: in `VSCodeStrategyManager`, a dialog handled by the
bash-command strategy whose `decide` returns nothing makes the whole manager
return nothing, even though the next strategy both handles the dialog and
decides it — resolution does not continue to the next strategy. -/
theorem C5_counterexample :
    ClaudeBashCommandStrategy.can_handle ctxC5 = true ∧
    ClaudeBashCommandStrategy.decide true true ctxC5 = none ∧
    ClaudeEditAutomaticallyStrategy.can_handle ctxC5 = true ∧
    ClaudeEditAutomaticallyStrategy.decide true ctxC5 =
      some ⟨"Yes", 0.8, "Auto-edit approved", false⟩ ∧
    VSCodeStrategyManager.decide none ctxC5 = none := by
  refine ⟨rfl, rfl, rfl, rfl, rfl⟩

/-- C5 amended: `AppStrategyManager.decide` does continue to the next
strategy when a handling strategy declines to decide, but
`VSCodeStrategyManager.decide` stops at the first strategy whose
`can_handle` is true and returns its result even when that result is
nothing. -/
theorem C5_amended :
    (∀ (s : AppStrategy) (rest : List AppStrategy) (ctx : DialogContext),
      s.can_handle ctx = true → s.decide ctx = none →
      AppStrategyManager.decide_list (s :: rest) ctx =
        AppStrategyManager.decide_list rest ctx) ∧
    (∀ (llm_provider : Option TextGen) (ctx : DialogContext),
      ClaudeBashCommandStrategy.can_handle ctx = true →
      VSCodeStrategyManager.decide llm_provider ctx =
        ClaudeBashCommandStrategy.decide true true ctx) := by
  constructor
  · intro s rest ctx hc hd
    simp [AppStrategyManager.decide_list, hc, hd]
  · intro llm_provider ctx hc
    simp [VSCodeStrategyManager.decide, hc]

/-- C5 witness: the amended behaviour at concrete dialogs — the app-strategy
manager falls through a handling-but-undecided Mail strategy, and the VS Code
manager returns the bash strategy's nothing. -/
theorem C5_amended_witness :
    AppStrategyManager.decide_list [app_strategies.MailStrategy] ctxPlainMail =
      AppStrategyManager.decide_list [] ctxPlainMail ∧
    VSCodeStrategyManager.decide none ctxC5 =
      ClaudeBashCommandStrategy.decide true true ctxC5 := by
  constructor
  · exact C5_amended.1 app_strategies.MailStrategy [] ctxPlainMail rfl rfl
  · exact C5_amended.2 none ctxC5 rfl

/-! ## Claim C6: the command-approval strategy's dangerous and safe paths -/

/-- C6: with options `["Yes", "No"]`, a dangerous extracted command is
rejected with `"No"` and `needs_confirmation = true`, and a safe,
non-dangerous extracted command is approved with `"Yes"`, confidence `0.9`
and `needs_confirmation = false`. -/
theorem C6_command_approval (ctx : DialogContext)
    (hopt : ctx.options = some ["Yes", "No"]) :
    (ClaudeBashCommandStrategy.is_dangerous_command
        (ClaudeBashCommandStrategy.extract_command (py_or_str ctx.question "")) = true →
      ClaudeBashCommandStrategy.decide true true ctx =
        some ⟨"No", 0.9, "Dangerous command detected: " ++
          ClaudeBashCommandStrategy.extract_command (py_or_str ctx.question ""), true⟩) ∧
    (ClaudeBashCommandStrategy.is_safe_command
        (ClaudeBashCommandStrategy.extract_command (py_or_str ctx.question "")) = true →
      ClaudeBashCommandStrategy.is_dangerous_command
        (ClaudeBashCommandStrategy.extract_command (py_or_str ctx.question "")) = false →
      ClaudeBashCommandStrategy.decide true true ctx =
        some ⟨"Yes", 0.9, "Safe command approved: " ++
          ClaudeBashCommandStrategy.extract_command (py_or_str ctx.question ""), false⟩) := by
  constructor
  · intro hdanger
    simp [ClaudeBashCommandStrategy.decide, hdanger]
  · intro hsafe hdanger
    simp [ClaudeBashCommandStrategy.decide, hdanger, hsafe, hopt, py_or_list]

/-- C6 witness: the two scenarios of the spec, `$ rm -rf /` and `$ ls -la`. -/
theorem C6_command_approval_witness :
    ClaudeBashCommandStrategy.decide true true ctxDanger =
      some ⟨"No", 0.9, "Dangerous command detected: " ++
        ClaudeBashCommandStrategy.extract_command (py_or_str ctxDanger.question ""), true⟩ ∧
    ClaudeBashCommandStrategy.decide true true ctxSafe =
      some ⟨"Yes", 0.9, "Safe command approved: " ++
        ClaudeBashCommandStrategy.extract_command (py_or_str ctxSafe.question ""), false⟩ := by
  constructor
  · exact (C6_command_approval ctxDanger rfl).1 (by decide)
  · exact (C6_command_approval ctxSafe rfl).2 (by decide) (by decide)

/-! ## Claim C1: confirmation gating of backend-generated free-text answers -/

/-- C1 counterexample: through the simple VS Code manager, a dialog answered
with backend-generated free text (text not among the options) is returned
with `needs_confirmation = false`. -/
theorem C1_counterexample :
    SimpleVSCodeStrategyManager.decide (some genC1) ctxQ =
      some ⟨"Use defaults", 0.9, "LLM-generated answer to: What file should I use?",
            false⟩ ∧
    (py_or_list ctxQ.options).contains "Use defaults" = false := by
  refine ⟨rfl, rfl⟩

/-- C1 amended: `ClaudeQuestionStrategy` returns backend-generated free text
with `needs_confirmation = true`, but `SimpleAnswerStrategy` returns
backend-generated free text with `needs_confirmation = false`; the claimed
guarantee holds only for the `ClaudeQuestionStrategy` path. -/
theorem C1_amended :
    (∀ (gen : TextGen) (ctx : DialogContext) (answer : String),
      gen (ClaudeQuestionStrategy.question_prompt ctx) = .ok answer →
      ClaudeQuestionStrategy.decide (some gen) ctx =
        some ⟨answer, 0.7, "LLM-generated answer to Claude\x27s question", true⟩) ∧
    (∀ (gen : TextGen) (ctx : DialogContext) (answer : String),
      gen (SimpleAnswerStrategy.answer_prompt (py_or_str ctx.question "")) = .ok answer →
      py_trim answer ≠ "" →
      SimpleAnswerStrategy.decide (some gen) ctx =
        some ⟨py_trim answer, 0.9,
              "LLM-generated answer to: " ++ py_or_str ctx.question "", false⟩) := by
  constructor
  · intro gen ctx answer h
    simp [ClaudeQuestionStrategy.decide, h]
  · intro gen ctx answer h htrim
    simp [SimpleAnswerStrategy.decide, SimpleAnswerStrategy.generate_llm_answer, h, htrim]

/-- C1 witness: both free-text paths at concrete dialogs and a concrete
backend. -/
theorem C1_amended_witness :
    ClaudeQuestionStrategy.decide (some genC1) ctxFreeText =
      some ⟨"Use defaults", 0.7, "LLM-generated answer to Claude\x27s question", true⟩ ∧
    SimpleAnswerStrategy.decide (some genC1) ctxQ =
      some ⟨py_trim "Use defaults", 0.9,
            "LLM-generated answer to: " ++ py_or_str ctxQ.question "", false⟩ := by
  constructor
  · exact C1_amended.1 genC1 ctxFreeText "Use defaults" rfl
  · exact C1_amended.2 genC1 ctxQ "Use defaults" rfl (by decide)

/-! ## Claim C8: where `needs_confirmation` comes from -/

/-- C8 counterexample: under the default configuration, Mail is on the
require-confirmation list, yet the decision the resolver returns for a Mail
deletion dialog comes from the Mail strategy with
`requires_confirmation = false` — the flag is not sourced from the
per-application policy on this path. -/
theorem C8_counterexample :
    requires_confirmation env0.require_confirmation_for ctxMail.app_name = true ∧
    DecisionEngine.decide env0 ctxMail =
      some ⟨"Delete", 0.7, "Allow deleting emails (can be recovered from trash)",
            false⟩ := by
  refine ⟨rfl, rfl⟩

/-- C8 amended: the per-application confirmation policy determines
`needs_confirmation` only for decisions produced past the strategy layers
(the AI-fallback path and the rule-based default); VS Code and
application-strategy decisions keep the strategy's own flag. -/
theorem C8_amended (env : EngineEnv) (ctx : DialogContext) (d : AIDecision)
    (hv : DecisionEngine.vscode_decision env ctx = none)
    (ha : AppStrategyManager.decide ctx = none)
    (hd : DecisionEngine.decide env ctx = some d) :
    d.requires_confirmation =
      requires_confirmation env.require_confirmation_for ctx.app_name := by
  unfold DecisionEngine.decide at hd
  rw [hv, ha] at hd
  simp only at hd
  cases hai : (if LLMFallbackManager.is_any_available env.fallback then
      DecisionEngine.ai_decision env ctx else none) with
  | some a =>
    rw [hai] at hd
    simp only [Option.some.injEq] at hd
    rw [← hd]
  | none =>
    rw [hai] at hd
    cases hr : DecisionEngine.rule_based_decision ctx with
    | some r =>
      rw [hr] at hd
      simp only [Option.map_some', Option.some.injEq] at hd
      rw [← hd]
    | none =>
      rw [hr] at hd
      simp at hd

/-- C8 witness: a dialog resolved by the rule-based default carries exactly
the policy flag. -/
theorem C8_amended_witness :
    (AIDecision.mk "OK" 0.6 "Rule-based: Choose first non-cancel option"
        false).requires_confirmation =
      requires_confirmation env0.require_confirmation_for ctxPlain.app_name :=
  C8_amended env0 ctxPlain _ rfl rfl rfl

/-! ## Claims C3 and C4: the fallback coordinator -/

/-- Step equation of the provider loop: unavailable identity. -/
theorem tryProviders_cons_skip (P : List (String × ProviderFun)) (prompt : String)
    (options : List String) (system_prompt : Option String)
    (name : String) (rest errors : List String)
    (hl : P.lookup name = none) :
    LLMFallbackManager.tryProviders P prompt options system_prompt (name :: rest) errors =
      (ProviderAttempt.skipped name ::
        (LLMFallbackManager.tryProviders P prompt options system_prompt rest errors).1,
       (LLMFallbackManager.tryProviders P prompt options system_prompt rest errors).2) := by
  simp only [LLMFallbackManager.tryProviders, hl]

/-- Step equation of the provider loop: invoked identity succeeds. -/
theorem tryProviders_cons_ok (P : List (String × ProviderFun)) (prompt : String)
    (options : List String) (system_prompt : Option String)
    (name : String) (rest errors : List String) (f : ProviderFun)
    (res : StructuredResult)
    (hl : P.lookup name = some f) (hr : f prompt options system_prompt = .ok res) :
    LLMFallbackManager.tryProviders P prompt options system_prompt (name :: rest) errors =
      ([ProviderAttempt.succeeded name], .ok res) := by
  simp only [LLMFallbackManager.tryProviders, hl, hr]

/-- Step equation of the provider loop: invoked identity raises. -/
theorem tryProviders_cons_err (P : List (String × ProviderFun)) (prompt : String)
    (options : List String) (system_prompt : Option String)
    (name : String) (rest errors : List String) (f : ProviderFun) (e : String)
    (hl : P.lookup name = some f) (hr : f prompt options system_prompt = .error e) :
    LLMFallbackManager.tryProviders P prompt options system_prompt (name :: rest) errors =
      (ProviderAttempt.failed name (name ++ " failed: " ++ e) ::
        (LLMFallbackManager.tryProviders P prompt options system_prompt rest
          (errors ++ [name ++ " failed: " ++ e])).1,
       (LLMFallbackManager.tryProviders P prompt options system_prompt rest
          (errors ++ [name ++ " failed: " ++ e])).2) := by
  simp only [LLMFallbackManager.tryProviders, hl, hr]

/-- When a run of the provider loop succeeds, the configured order splits as
`pre ++ k :: post`: the identities of `pre` were each skipped or failed, `k`
was invoked and succeeded, and nothing after `k` was touched. -/
theorem tryProviders_ok_shape (P : List (String × ProviderFun)) (prompt : String)
    (options : List String) (system_prompt : Option String) :
    ∀ (order errors : List String) (res : StructuredResult),
      (LLMFallbackManager.tryProviders P prompt options system_prompt order errors).2 =
        .ok res →
      ∃ pre k post f, order = pre ++ k :: post ∧
        (LLMFallbackManager.tryProviders P prompt options system_prompt order errors).1 =
          pre.map (LLMFallbackManager.attempt_of P prompt options system_prompt) ++
            [ProviderAttempt.succeeded k] ∧
        (∀ n ∈ pre,
          (LLMFallbackManager.attempt_of P prompt options system_prompt n).isSucceeded
            = false) ∧
        P.lookup k = some f ∧ f prompt options system_prompt = .ok res := by
  intro order
  induction order with
  | nil =>
    intro errors res h
    simp [LLMFallbackManager.tryProviders] at h
  | cons name rest ih =>
    intro errors res h
    cases hl : P.lookup name with
    | none =>
      rw [tryProviders_cons_skip P prompt options system_prompt name rest errors hl] at h ⊢
      obtain ⟨pre, k, post, f, horder, htrace, hpre, hk, hf⟩ := ih errors res h
      refine ⟨name :: pre, k, post, f, by rw [horder, List.cons_append], ?_, ?_, hk, hf⟩
      · simp only [List.map_cons, List.cons_append, List.cons.injEq]
        refine ⟨?_, htrace⟩
        simp [LLMFallbackManager.attempt_of, hl]
      · intro n hn
        rcases List.mem_cons.mp hn with hn | hn
        · subst hn
          simp [LLMFallbackManager.attempt_of, hl, ProviderAttempt.isSucceeded]
        · exact hpre n hn
    | some f =>
      cases hr : f prompt options system_prompt with
      | ok res2 =>
        rw [tryProviders_cons_ok P prompt options system_prompt name rest errors f res2 hl hr]
          at h ⊢
        simp only [Except.ok.injEq] at h
        subst h
        refine ⟨[], name, rest, f, rfl, by simp, by simp, hl, hr⟩
      | error e =>
        rw [tryProviders_cons_err P prompt options system_prompt name rest errors f e hl hr]
          at h ⊢
        obtain ⟨pre, k, post, g, horder, htrace, hpre, hk, hg⟩ :=
          ih (errors ++ [name ++ " failed: " ++ e]) res h
        refine ⟨name :: pre, k, post, g, by rw [horder, List.cons_append], ?_, ?_, hk, hg⟩
        · simp only [List.map_cons, List.cons_append, List.cons.injEq]
          refine ⟨?_, htrace⟩
          simp [LLMFallbackManager.attempt_of, hl, hr]
        · intro n hn
          rcases List.mem_cons.mp hn with hn | hn
          · subst hn
            simp [LLMFallbackManager.attempt_of, hl, hr, ProviderAttempt.isSucceeded]
          · exact hpre n hn

/-- C4: a successful `generate_structured` run attempts identities strictly
in the configured order: the order splits as `pre ++ k :: post`, every
identity in `pre` was attempted and failed or was skipped as unavailable,
identity `k` produced the returned result, identities in `post` were never
invoked (no attempt of theirs appears in the trace), and exactly one attempt
in the trace is a success; under the same hypotheses the public
`generate_structured` entry point returns that first success. -/
theorem C4_fallback_order (P : List (String × ProviderFun)) (prompt : String)
    (options : List String) (system_prompt : Option String)
    (order : List String) (res : StructuredResult)
    (h : (LLMFallbackManager.tryProviders P prompt options system_prompt order []).2 =
      .ok res) :
    ∃ pre k post, order = pre ++ k :: post ∧
      (LLMFallbackManager.tryProviders P prompt options system_prompt order []).1 =
        pre.map (LLMFallbackManager.attempt_of P prompt options system_prompt) ++
          [ProviderAttempt.succeeded k] ∧
      (∀ n ∈ pre,
        (LLMFallbackManager.attempt_of P prompt options system_prompt n).isSucceeded
          = false) ∧
      (∃ f, P.lookup k = some f ∧ f prompt options system_prompt = .ok res) ∧
      ((LLMFallbackManager.tryProviders P prompt options system_prompt order []).1.filter
          ProviderAttempt.isSucceeded) = [ProviderAttempt.succeeded k] ∧
      (P ≠ [] →
        LLMFallbackManager.generate_structured ⟨P, order, true⟩ prompt options
          system_prompt = .ok res) := by
  obtain ⟨pre, k, post, f, horder, htrace, hpre, hk, hf⟩ :=
    tryProviders_ok_shape P prompt options system_prompt order [] res h
  refine ⟨pre, k, post, horder, htrace, hpre, ⟨f, hk, hf⟩, ?_, ?_⟩
  · rw [htrace, List.filter_append]
    have hnil : (pre.map
        (LLMFallbackManager.attempt_of P prompt options system_prompt)).filter
        ProviderAttempt.isSucceeded = [] := by
      rw [List.filter_eq_nil_iff]
      intro a ha
      obtain ⟨n, hn, rfl⟩ := List.mem_map.mp ha
      simp [hpre n hn]
    rw [hnil]
    simp [ProviderAttempt.isSucceeded]
  · intro hP
    rw [LLMFallbackManager.generate_structured]
    have : ¬ (¬ (true : Bool) ∨ P.length = 0) := by
      simp [List.length_eq_zero, hP]
    rw [if_neg this]
    exact h

/-- C4 witness: order `["a", "b", "c"]` where `"a"` fails, `"b"` succeeds
and `"c"` is configured but never reached. -/
theorem C4_fallback_order_witness :
    ∃ pre k post, (["a", "b", "c"] : List String) = pre ++ k :: post ∧
      (LLMFallbackManager.tryProviders [("a", failP), ("b", okP)] "p" ["x"] none
          ["a", "b", "c"] []).1 =
        pre.map (LLMFallbackManager.attempt_of [("a", failP), ("b", okP)] "p" ["x"] none)
          ++ [ProviderAttempt.succeeded k] ∧
      (∀ n ∈ pre,
        (LLMFallbackManager.attempt_of [("a", failP), ("b", okP)] "p" ["x"] none
          n).isSucceeded = false) ∧
      (∃ f, ([("a", failP), ("b", okP)]).lookup k = some f ∧
        f "p" ["x"] none = .ok ⟨"Save", "fine", none⟩) ∧
      ((LLMFallbackManager.tryProviders [("a", failP), ("b", okP)] "p" ["x"] none
          ["a", "b", "c"] []).1.filter ProviderAttempt.isSucceeded) =
        [ProviderAttempt.succeeded k] ∧
      (([("a", failP), ("b", okP)] : List (String × ProviderFun)) ≠ [] →
        LLMFallbackManager.generate_structured ⟨[("a", failP), ("b", okP)], ["a", "b", "c"], true⟩
          "p" ["x"] none = .ok ⟨"Save", "fine", none⟩) :=
  C4_fallback_order [("a", failP), ("b", okP)] "p" ["x"] none ["a", "b", "c"]
    ⟨"Save", "fine", none⟩ rfl

/-- When every available identity in the order fails, the provider loop ends
in the raised "all failed" error. -/
theorem tryProviders_all_fail (P : List (String × ProviderFun)) (prompt : String)
    (options : List String) (system_prompt : Option String) :
    ∀ (order errors : List String),
      (∀ name ∈ order, ∀ f, P.lookup name = some f →
        ∃ e, f prompt options system_prompt = .error e) →
      ∃ e, (LLMFallbackManager.tryProviders P prompt options system_prompt order
        errors).2 = .error e := by
  intro order
  induction order with
  | nil =>
    intro errors _
    exact ⟨_, rfl⟩
  | cons name rest ih =>
    intro errors hfail
    cases hl : P.lookup name with
    | none =>
      rw [tryProviders_cons_skip P prompt options system_prompt name rest errors hl]
      exact ih errors (fun n hn => hfail n (List.mem_cons_of_mem _ hn))
    | some f =>
      obtain ⟨e, he⟩ := hfail name (List.mem_cons_self _ _) f hl
      rw [tryProviders_cons_err P prompt options system_prompt name rest errors f e hl he]
      exact ih _ (fun n hn => hfail n (List.mem_cons_of_mem _ hn))

/-- C3: when every configured identity is unavailable or fails (including
the case of no available providers at all), `generate_structured` raises an
error, and `DecisionEngine.decide` — past strategy layers that produced
nothing — treats that as "no decision from this path" and returns the
rule-based default stamped with the confirmation policy, instead of
propagating the fault. -/
theorem C3_backend_exhaustion (env : EngineEnv) (ctx : DialogContext)
    (hv : DecisionEngine.vscode_decision env ctx = none)
    (ha : AppStrategyManager.decide ctx = none)
    (hfail : ∀ name ∈ env.fallback.fallback_order, ∀ f,
      env.fallback.providers.lookup name = some f →
      ∃ e, f (DecisionEngine.decision_prompt ctx) ctx.get_options
        (some DecisionEngine.decision_system_prompt) = .error e) :
    (∃ e, LLMFallbackManager.generate_structured env.fallback
        (DecisionEngine.decision_prompt ctx) ctx.get_options
        (some DecisionEngine.decision_system_prompt) = .error e) ∧
    DecisionEngine.decide env ctx =
      (DecisionEngine.rule_based_decision ctx).map
        (fun d => { d with requires_confirmation :=
          requires_confirmation env.require_confirmation_for ctx.app_name }) := by
  have hgs : ∃ e, LLMFallbackManager.generate_structured env.fallback
      (DecisionEngine.decision_prompt ctx) ctx.get_options
      (some DecisionEngine.decision_system_prompt) = .error e := by
    rw [LLMFallbackManager.generate_structured]
    by_cases hcond : ¬ env.fallback.enabled ∨ env.fallback.providers.length = 0
    · rw [if_pos hcond]
      exact ⟨_, rfl⟩
    · rw [if_neg hcond]
      exact tryProviders_all_fail env.fallback.providers _ _ _
        env.fallback.fallback_order [] hfail
  refine ⟨hgs, ?_⟩
  have hai : DecisionEngine.ai_decision env ctx = none := by
    rw [DecisionEngine.ai_decision]
    by_cases hav : LLMFallbackManager.is_any_available env.fallback
    · obtain ⟨e, he⟩ := hgs
      rw [if_neg (by simp [hav]), he]
    · rw [if_pos (by simp [hav])]
  rw [DecisionEngine.decide, hv, ha]
  simp only [hai, ite_self]

/-- C3 witness: an engine whose single backend always fails, on a dialog no
strategy handles. -/
theorem C3_backend_exhaustion_witness :
    (∃ e, LLMFallbackManager.generate_structured envFail.fallback
        (DecisionEngine.decision_prompt ctxPlain) ctxPlain.get_options
        (some DecisionEngine.decision_system_prompt) = .error e) ∧
    DecisionEngine.decide envFail ctxPlain =
      (DecisionEngine.rule_based_decision ctxPlain).map
        (fun d => { d with requires_confirmation :=
          requires_confirmation envFail.require_confirmation_for ctxPlain.app_name }) :=
  C3_backend_exhaustion envFail ctxPlain rfl rfl
    (by
      intro name hname f hf
      simp only [envFail] at hf hname
      simp only [List.mem_singleton] at hname
      subst hname
      simp only [List.lookup] at hf
      simp at hf
      subst hf
      exact ⟨"timeout", rfl⟩)

/-! ## Claims C7 and C10: the response parser -/

/-- Strategy 1 only ever picks an element of `options`. -/
theorem strategy1_mem {first_line : String} {lines options : List String}
    {c : String × String} (h : llm_parsing.strategy1 first_line lines options = some c) :
    c.1 ∈ options := by
  simp only [llm_parsing.strategy1] at h
  split at h
  · exact absurd h (by simp)
  · split at h
    · split at h
      · next choice hget =>
        simp only [Option.some.injEq] at h
        rw [← h]
        exact List.get?_mem hget
      · exact absurd h (by simp)
    · exact absurd h (by simp)

/-- Strategy 2 never raises when no option is the empty string, and either
leaves the choice/reasoning pair unchanged or picks an element of `options`. -/
theorem strategy2_ok {response response_lower : String} :
    ∀ (options : List String), (∀ o ∈ options, o ≠ "") →
    ∀ (cr : String × String), ∃ cr2,
      llm_parsing.strategy2 response response_lower cr options = .ok cr2 ∧
      (cr2 = cr ∨ cr2.1 ∈ options) := by
  intro options
  induction options with
  | nil =>
    intro _ cr
    exact ⟨cr, rfl, Or.inl rfl⟩
  | cons option rest ih =>
    intro hne cr
    unfold llm_parsing.strategy2
    split
    · rw [if_neg (hne option (List.mem_cons_self _ _))]
      refine ⟨_, rfl, Or.inr (List.mem_cons_self _ _)⟩
    · obtain ⟨cr2, hcr2, hmem⟩ := ih (fun o ho => hne o (List.mem_cons_of_mem _ ho)) cr
      exact ⟨cr2, hcr2, hmem.imp id (List.mem_cons_of_mem _)⟩

/-- Strategy 3 only ever picks an element of `options`. -/
theorem strategy3_mem {response_lower : String} {options : List String} {c : String}
    (h : llm_parsing.strategy3 response_lower options = some c) : c ∈ options := by
  unfold llm_parsing.strategy3 at h
  split at h
  · split at h
    · exact List.get?_mem h
    · exact absurd h (by simp)
  · exact absurd h (by simp)

/-- The best-overlap accumulator only moves to elements of the option list. -/
theorem best_overlap_mem {response_words : List String} :
    ∀ (options : List String) (acc : Option String × Nat) (b : String) (n : Nat),
      llm_parsing.best_overlap response_words options acc = (some b, n) →
      acc.1 = some b ∨ b ∈ options := by
  intro options
  induction options with
  | nil =>
    intro acc b n h
    unfold llm_parsing.best_overlap at h
    rw [h]
    exact Or.inl rfl
  | cons option rest ih =>
    intro acc b n h
    simp only [llm_parsing.best_overlap] at h
    split at h
    · rcases ih _ b n h with hacc | hmem
      · simp only at hacc
        simp only [Option.some.injEq] at hacc
        exact Or.inr (by rw [← hacc]; exact List.mem_cons_self _ _)
      · exact Or.inr (List.mem_cons_of_mem _ hmem)
    · rcases ih _ b n h with hacc | hmem
      · exact Or.inl hacc
      · exact Or.inr (List.mem_cons_of_mem _ hmem)

/-- Strategy 4 only ever picks an element of `options`. -/
theorem strategy4_mem {response_lower : String} {options : List String}
    {c : String × String} (h : llm_parsing.strategy4 response_lower options = some c) :
    c.1 ∈ options := by
  simp only [llm_parsing.strategy4] at h
  split at h
  · next b score heq =>
    split at h
    · simp only [Option.some.injEq] at h
      rcases best_overlap_mem options (none, 0) b score heq with hacc | hmem
      · exact absurd hacc (by simp)
      · rw [← h]
        exact hmem
    · exact absurd h (by simp)
  · exact absurd h (by simp)

/-- `chain_step3` preserves "the choice is unset or one of the options". -/
theorem chain_step3_mem {response_lower : String} {options : List String}
    {cr2 : String × String} (h : cr2.1 = "" ∨ cr2.1 ∈ options) :
    (llm_parsing.chain_step3 response_lower options cr2).1 = "" ∨
      (llm_parsing.chain_step3 response_lower options cr2).1 ∈ options := by
  unfold llm_parsing.chain_step3
  by_cases hc : cr2.1 = ""
  · rw [if_pos hc]
    cases hs : llm_parsing.strategy3 response_lower options with
    | some c =>
      exact Or.inr (strategy3_mem hs)
    | none => exact h
  · rw [if_neg hc]
    exact h

/-- `chain_step4` preserves "the choice is unset or one of the options". -/
theorem chain_step4_mem {response_lower : String} {options : List String}
    {cr3 : String × String} (h : cr3.1 = "" ∨ cr3.1 ∈ options) :
    (llm_parsing.chain_step4 response_lower options cr3).1 = "" ∨
      (llm_parsing.chain_step4 response_lower options cr3).1 ∈ options := by
  unfold llm_parsing.chain_step4
  by_cases hc : cr3.1 = ""
  · rw [if_pos hc]
    cases hs : llm_parsing.strategy4 response_lower options with
    | some c =>
      exact Or.inr (strategy4_mem hs)
    | none => exact h
  · rw [if_neg hc]
    exact h

/-- `chain_start` yields an unset choice or one of the options. -/
theorem chain_start_mem (first_line : String) (lines options : List String) :
    (llm_parsing.chain_start first_line lines options).1 = "" ∨
      (llm_parsing.chain_start first_line lines options).1 ∈ options := by
  unfold llm_parsing.chain_start
  cases hs : llm_parsing.strategy1 first_line lines options with
  | some c => exact Or.inr (strategy1_mem hs)
  | none => exact Or.inl rfl

/-- The strategy chain never raises when no option is the empty string, and
its choice is either unset (`""`) or an element of `options`. -/
theorem choice_chain_ok {response : String} {options : List String}
    (hne : ∀ o ∈ options, o ≠ "") :
    ∃ cr, llm_parsing.choice_chain response options = .ok cr ∧
      (cr.1 = "" ∨ cr.1 ∈ options) := by
  simp only [llm_parsing.choice_chain]
  have step : ∀ (cr1 : String × String), (cr1.1 = "" ∨ cr1.1 ∈ options) →
      ∃ cr2, (if cr1.1 = "" then
          llm_parsing.strategy2 response (py_lower response) cr1 options
        else Except.ok cr1) = Except.ok cr2 ∧ (cr2.1 = "" ∨ cr2.1 ∈ options) := by
    intro cr1 h1
    by_cases hc : cr1.1 = ""
    · rw [if_pos hc]
      obtain ⟨cr2, hcr2, hmem⟩ := strategy2_ok options hne cr1
      refine ⟨cr2, hcr2, ?_⟩
      rcases hmem with rfl | hmem
      · exact Or.inl hc
      · exact Or.inr hmem
    · rw [if_neg hc]
      exact ⟨cr1, rfl, h1⟩
  obtain ⟨cr2, hcr2, h2⟩ :=
    step (llm_parsing.chain_start (py_trim ((py_split_lines response).headD ""))
      (py_split_lines response) options)
      (chain_start_mem _ _ _)
  rw [hcr2]
  exact ⟨_, rfl, chain_step4_mem (chain_step3_mem h2)⟩

/-- C7 amended: for every response and every non-empty options list whose
options are all non-empty strings, the parser terminates without raising and
returns a choice drawn from the options; whenever the strategy chain
produced no choice, the returned choice is the first option with confidence
`0.3`.  (Without the all-options-non-empty condition the parser can raise —
see the counterexample.) -/
theorem C7_parser_total (response : String) (options : List String) (confidence : ℚ)
    (hopts : options ≠ []) (hne : ∀ o ∈ options, o ≠ "") :
    ∃ r, parse_structured_response response options confidence = .ok r ∧
      r.choice ∈ options ∧
      (∀ reasoning,
        llm_parsing.choice_chain (py_trim response) options = .ok ("", reasoning) →
        r.choice = options.headD "" ∧ r.confidence = 0.3) := by
  obtain ⟨cr, hchain, hmem⟩ := @choice_chain_ok (py_trim response) options hne
  obtain ⟨choice, reasoning0⟩ := cr
  simp only at hmem
  by_cases hc : choice = ""
  · subst hc
    simp only [parse_structured_response, hchain, if_pos rfl]
    cases options with
    | nil => exact absurd rfl hopts
    | cons o rest =>
      refine ⟨_, rfl, List.mem_cons_self _ _, ?_⟩
      intro reasoning _
      exact ⟨rfl, rfl⟩
  · simp only [parse_structured_response, hchain, if_neg hc]
    refine ⟨_, rfl, ?_, ?_⟩
    · rcases hmem with hmem | hmem
      · exact absurd hmem hc
      · exact hmem
    · intro reasoning hr
      simp only [Except.ok.injEq, Prod.mk.injEq] at hr
      exact absurd hr.1 hc

/-- C7 counterexample: with the non-empty options list `[""]` (an empty
option label), the parser raises: strategy 2 matches the empty option and
Python's `response.split("", 1)` raises `ValueError`. -/
theorem C7_counterexample :
    ([""] : List String) ≠ [] ∧
    parse_structured_response "hello world" [""] 0.8 =
      .error "ValueError: empty separator" := by
  refine ⟨by decide, rfl⟩

/-- C7 witness: unparseable garbage against ordinary options falls back to
the first option with confidence `0.3`. -/
theorem C7_parser_total_witness :
    ∃ r, parse_structured_response "@@##!!" ["Alpha", "Beta"] 0.8 = .ok r ∧
      r.choice ∈ ["Alpha", "Beta"] ∧
      (∀ reasoning,
        llm_parsing.choice_chain (py_trim "@@##!!") ["Alpha", "Beta"] =
          .ok ("", reasoning) →
        r.choice = (["Alpha", "Beta"] : List String).headD "" ∧ r.confidence = 0.3) :=
  C7_parser_total "@@##!!" ["Alpha", "Beta"] 0.8 (by decide) (by decide)

/-- Strategy 1 can never pick from an empty options list. -/
theorem strategy1_nil (first_line : String) (lines : List String) :
    llm_parsing.strategy1 first_line lines [] = none := by
  simp only [llm_parsing.strategy1]
  split
  · rfl
  · split
    · rfl
    · rfl

/-- Strategy 3 can never pick from an empty options list. -/
theorem strategy3_nil (response_lower : String) :
    llm_parsing.strategy3 response_lower [] = none := by
  unfold llm_parsing.strategy3
  split
  · split
    · next hcond =>
      exfalso
      simp only [List.length_nil] at hcond
      omega
    · rfl
  · rfl

/-- Strategy 4 can never pick from an empty options list. -/
theorem strategy4_nil (response_lower : String) :
    llm_parsing.strategy4 response_lower [] = none := rfl

/-- With no options the strategy chain always returns an unset choice. -/
theorem choice_chain_nil (response : String) :
    llm_parsing.choice_chain response [] = .ok ("", "") := by
  simp [llm_parsing.choice_chain, llm_parsing.chain_start, strategy1_nil,
        llm_parsing.strategy2, llm_parsing.chain_step3, llm_parsing.chain_step4,
        strategy3_nil, strategy4_nil]

/-- C10: with an empty options list, no parsing strategy can ever match, and
for every input the terminal fallback indexes the empty list and raises
`IndexError` — the parser's totality indeed needs the non-empty-options
precondition. -/
theorem C10_parser_empty_options (response : String) (confidence : ℚ) :
    parse_structured_response response [] confidence =
      .error "IndexError: list index out of range" := by
  simp [parse_structured_response, choice_chain_nil]

end SentryAI
